import Mathlib

/-!
Shallow embedding of `src/lib/api.js` (class `RealtimeAPI`), the connection
and session manager of this repository, together with proofs of the spec
claims about it.

Host primitives (the WHATWG `WebSocket`, `JSON.parse`, `JSON.stringify`,
`new URL`) are not repository code; where an operation branches on the
outcome of such a primitive, the embedding takes that outcome as an input
(an `Option` for a fallible parse) and otherwise mirrors the source line by
line.  Two collaborator modules are imported by `api.js` but are not under
`src/` (`event_handler.js`, `utils.js`); the pieces of them that the claims
need (`dispatch`, `generateId`) are modelled from the spec, as marked below.
-/

namespace RealtimeApi

/-- JavaScript values as far as the manager observes them: the payloads of
events and the results of parsing inbound frames. -/
inductive JsVal where
  | vnull : JsVal
  | vundefined : JsVal
  | vbool : Bool → JsVal
  | vnum : Int → JsVal
  | vstr : String → JsVal
  | varr : List JsVal → JsVal
  | vobj : List (String × JsVal) → JsVal
deriving Repr

/-- The JavaScript typeof operator, restricted to the values of `JsVal`:
null, arrays and plain objects all report "object". -/
def jsTypeof : JsVal → String
  | .vnull => "object"
  | .vundefined => "undefined"
  | .vbool _ => "boolean"
  | .vnum _ => "number"
  | .vstr _ => "string"
  | .varr _ => "object"
  | .vobj _ => "object"

/-- Strict equality against the null literal, as in `data === null`. -/
def isNull : JsVal → Bool
  | .vnull => true
  | _ => false

/-- Field list of an object after one assignment, mirroring JavaScript
object-literal evaluation: an existing key is overwritten in place, a new
key is appended. -/
def setField : List (String × JsVal) → String → JsVal → List (String × JsVal)
  | [], k, v => [(k, v)]
  | (k₂, v₂) :: rest, k, v =>
      if k₂ = k then (k, v) :: rest else (k₂, v₂) :: setField rest k v

/-- Builds the object denoted by an object literal whose entries are
evaluated left to right, later entries overriding earlier ones: the
semantics of `\x7b event_id: ..., type: ..., ...data \x7d`. -/
def mkObject (entries : List (String × JsVal)) : JsVal :=
  .vobj (entries.foldl (fun acc kv => setField acc kv.1 kv.2) [])

/-- Looks a key up in a field list (first match; field lists built through
`setField` hold each key at most once). -/
def lookupField : List (String × JsVal) → String → Option JsVal
  | [], _ => none
  | (k₂, v) :: rest, k => if k₂ = k then some v else lookupField rest k

/-- Reads a property of an object value, returning undefined when the key is
absent; used in theorem statements to inspect constructed Wire Events. -/
def getField (v : JsVal) (k : String) : JsVal :=
  match v with
  | .vobj fields => (lookupField fields k).getD .vundefined
  | _ => .vundefined

/-- Property access as an expression that can throw: reading a property of
null or undefined raises a TypeError (`none`); on every other value it
yields the property or undefined.  Mirrors `message.type` in
`handleMessage`. -/
def propAccess (v : JsVal) (k : String) : Option JsVal :=
  match v with
  | .vnull => none
  | .vundefined => none
  | .vobj fields => some ((lookupField fields k).getD .vundefined)
  | _ => some .vundefined

/-- Own enumerable entries contributed by spreading a value into an object
literal: an object contributes its fields, an array contributes its elements
under their decimal index keys.  Primitives never reach the spread in `send`
because the payload check rejects them first. -/
def spreadFields : JsVal → List (String × JsVal)
  | .vobj fields => fields
  | .varr xs => xs.enum.map (fun p => (toString p.1, p.2))
  | _ => []

mutual
/-- String coercion of a value, as performed by a template literal such as
the event name interpolated into `server.${eventName}`. -/
def jsToString : JsVal → String
  | .vstr s => s
  | .vnum n => toString n
  | .vbool b => cond b "true" "false"
  | .vnull => "null"
  | .vundefined => "undefined"
  | .vobj _ => "[object Object]"
  | .varr xs => jsArrJoin xs

/-- Array-to-string coercion: elements joined with commas. -/
def jsArrJoin : List JsVal → String
  | [] => ""
  | [v] => jsElemStr v
  | v :: rest => jsElemStr v ++ "," ++ jsArrJoin rest

/-- Element coercion inside a join: null and undefined become empty. -/
def jsElemStr : JsVal → String
  | .vnull => ""
  | .vundefined => ""
  | v => jsToString v
end

/-- Transport-level ready state of a WebSocket handle, as reported by the
host (`isConnected` compares it against `WebSocket.OPEN`). -/
inductive WsReadyState where
  | connecting : WsReadyState
  | wsOpen : WsReadyState
  | closing : WsReadyState
  | closed : WsReadyState
deriving DecidableEq, Repr

/-- The socket handle the manager stores in `this.ws`: the only attribute
the manager reads from it is its ready state. -/
structure SocketHandle where
  readyState : WsReadyState
deriving DecidableEq, Repr

/-- The mutable state of a `RealtimeAPI` instance: the configuration fields
set by the constructor, the single nullable socket handle `this.ws`, and the
counter backing the modelled identifier generator. -/
structure ApiState where
  url : String
  token : Option String
  turnDetection : Option String
  debug : Bool
  ws : Option SocketHandle
  evtCounter : Nat
deriving Repr

/-- Observable side effects of a manager operation, in the order they are
performed.  A dispatch hands an event to the Event Hub; a write sends a
frame over the socket (the frame on the wire is the JSON serialization of
the carried value); wsClose is a `ws.close()` request to the transport.
Debug logging writes to the console only and is not an observable effect
here: the claims quantify over dispatches and transport writes. -/
inductive Effect where
  | dispatch : String → JsVal → Effect
  | wsSend : JsVal → Effect
  | wsClose : Effect
deriving Repr

/-- Modelled from the spec: `RealtimeEventHandler.dispatch`
(`event_handler.js` is not under `src/`).  The spec describes dispatch as
synchronously invoking the current local subscribers of a name with a
payload; for the claims only the fact and order of dispatches matter, so a
dispatch is recorded as an `Effect.dispatch name payload` entry in the
effect trace of the operation performing it. -/
def dispatchEffect (name : String) (payload : JsVal) : Effect :=
  .dispatch name payload

/-- Modelled from the spec: `RealtimeUtils.generateId` (`utils.js` is not
under `src/`).  The spec says `send` generates a fresh unique identifier
with the given prefix; this model derives it from a per-instance counter,
which makes distinct generations distinct. -/
def generateId (pre : String) (ctr : Nat) : String :=
  pre ++ toString ctr

/-- The state of a fresh `new RealtimeAPI()` with default settings: default
URL, no token, no turn detection, debug off, and a null socket handle. -/
def initState : ApiState :=
  { url := "wss://api.openai.com/v1/realtime"
  , token := none
  , turnDetection := none
  , debug := false
  , ws := none
  , evtCounter := 0 }

/-- The method `isConnected()`: true iff a handle exists and its ready state
is OPEN (`this.ws?.readyState === WebSocket.OPEN`). -/
def isConnected (s : ApiState) : Bool :=
  match s.ws with
  | some w => w.readyState = .wsOpen
  | none => false

/-- Connection-establishment failures of `connect()` (section 7 of the
spec names them AlreadyConnected, AlreadyConnecting, EnvironmentUnsupported
and ConnectFailed; the source raises them as `Error` values with fixed
messages, ConnectFailed carrying the target URL). -/
inductive ConnErr where
  | alreadyConnected : ConnErr
  | alreadyConnecting : ConnErr
  | environmentUnsupported : ConnErr
  | connectFailed : String → ConnErr
deriving DecidableEq, Repr

/-- The immediate result of calling `connect()`: a rejected promise, a
pending promise with the socket attempt in flight, or a synchronous throw.
The source contains no throw statement in `connect`, so the embedding never
produces `thrown`; the constructor exists so that claims distinguishing
rejection from throwing are statable.  Each result carries the state of the
manager when `connect` returns. -/
inductive ConnectResult where
  | rejected : ConnErr → ApiState → ConnectResult
  | pending : ApiState → ConnectResult
  | thrown : ConnErr → ApiState → ConnectResult
deriving Repr

/-- The method `connect()`.  `hasWebSocket` is whether the host provides a
socket transport (`globalThis.WebSocket`).  Checks run in source order:
already connected, already connecting, unsupported environment; otherwise a
new socket is created (its ready state starts at CONNECTING per the host)
and stored in `this.ws` before the promise settles. -/
def connect (hasWebSocket : Bool) (s : ApiState) : ConnectResult :=
  if isConnected s then
    .rejected .alreadyConnected s
  else
    match s.ws with
    | some _ => .rejected .alreadyConnecting s
    | none =>
      if !hasWebSocket then
        .rejected .environmentUnsupported s
      else
        .pending { s with ws := some { readyState := .connecting } }

/-- The host fires the open event of the pending socket: its ready state
becomes OPEN.  The `onOpen` handler in the source resolves the promise and
swaps listeners but mutates no manager field. -/
def socketOpened (s : ApiState) : ApiState :=
  { s with ws := s.ws.map (fun _ => { readyState := .wsOpen }) }

/-- The one-shot `onErrorDuringConnection` handler: clears `this.ws` to null
and rejects the pending promise with ConnectFailed carrying the target
URL. -/
def connErrorDuringConnection (s : ApiState) : ApiState × ConnErr :=
  ({ s with ws := none }, .connectFailed s.url)

/-- The method `disconnect()`: if a handle exists, request transport close
and clear the handle to null; otherwise do nothing. -/
def disconnect (s : ApiState) : ApiState × List Effect :=
  match s.ws with
  | some _ => ({ s with ws := none }, [Effect.wsClose])
  | none => (s, [])

/-- The payload of the local close event: an object with a single boolean
error field. -/
def closePayload (err : Bool) : JsVal :=
  .vobj [("error", .vbool err)]

/-- The permanent `handleError` handler: dispatches a local close event with
the error flag true, then calls `disconnect()`. -/
def handleError (s : ApiState) : ApiState × List Effect :=
  let d := disconnect s
  (d.1, dispatchEffect "close" (closePayload true) :: d.2)

/-- The permanent `handleClose` handler: dispatches a local close event with
the error flag false, then calls `disconnect()`. -/
def handleClose (s : ApiState) : ApiState × List Effect :=
  let d := disconnect s
  (d.1, dispatchEffect "close" (closePayload false) :: d.2)

/-- The method `receive(eventName, payload)`: dispatches the payload under
`server.<eventName>` and then under `server.*`.  No manager field
changes. -/
def receive (eventName : String) (payload : JsVal) (s : ApiState) :
    ApiState × List Effect :=
  (s, [dispatchEffect ("server." ++ eventName) payload,
       dispatchEffect "server.*" payload])

/-- The permanent `handleMessage` handler over the outcome of the host
primitive `JSON.parse(event.data)`: `none` when the raw frame is not
parseable (the parse threw), `some v` when it parsed to the value `v`.  A
parse failure is caught and logged, with no dispatch and no state change; on
success the type property is read (property access on a parsed null throws
and is caught by the same catch) and `receive` is called with its string
coercion and the full parsed value. -/
def handleMessage (parsed : Option JsVal) (s : ApiState) :
    ApiState × List Effect :=
  match parsed with
  | none => (s, [])
  | some msg =>
    match propAccess msg "type" with
    | none => (s, [])
    | some tv => receive (jsToString tv) msg s

/-- Failures of `send()`: thrown before any effect is performed. -/
inductive SendErr where
  | notConnected : SendErr
  | invalidPayload : SendErr
deriving DecidableEq, Repr

/-- The result of `send()`: a synchronous throw carrying the unchanged state
and the (empty) effects performed before the throw, or success with the new
state and the effect trace. -/
inductive SendOutcome where
  | thrown : SendErr → ApiState → List Effect → SendOutcome
  | ok : ApiState → List Effect → SendOutcome
deriving Repr

/-- The method `send(eventName, data)`.  Checks run in source order: not
connected, then the payload check `typeof data !== "object" || data ===
null`.  On success the Wire Event is built by the object literal that sets
event_id and type first and then spreads data, the event is dispatched
under `client.<eventName>` and `client.*`, and one frame is written to the
socket. -/
def send (eventName : String) (data : JsVal) (s : ApiState) : SendOutcome :=
  if !isConnected s then
    .thrown .notConnected s []
  else if jsTypeof data != "object" || isNull data then
    .thrown .invalidPayload s []
  else
    let fid := generateId "evt_" s.evtCounter
    let event := mkObject
      ([("event_id", .vstr fid), ("type", .vstr eventName)] ++
        spreadFields data)
    .ok { s with evtCounter := s.evtCounter + 1 }
      [dispatchEffect ("client." ++ eventName) event,
       dispatchEffect "client.*" event,
       Effect.wsSend event]

/-- The components of a parsed URL as the host URL parser reports them:
`protocol` carries its trailing colon, `search` and `hash` are the query and
fragment.  `new URL` itself is a host primitive; `getWebSocketUrl` below
takes its outcome as input. -/
structure UrlRecord where
  protocol : String
  host : String
  pathname : String
  search : String
  hash : String

/-- The method `getWebSocketUrl(url)` over the outcome of the host parse
`new URL(url)` (`none` when the parse threw): secure HTTP maps to the
secure transport scheme, every other scheme to the plain one, and the
result is rebuilt from protocol, host and pathname only. -/
def getWebSocketUrl (url : String) (parsed : Option UrlRecord) :
    Except String String :=
  match parsed with
  | none => .error ("The provided URL \"" ++ url ++ "\" is not a valid URL.")
  | some u =>
    let protocol := if u.protocol = "https:" then "wss:" else "ws:"
    .ok (protocol ++ "//" ++ u.host ++ u.pathname)

/-- Written from the words of the spec, for comparison with
`getWebSocketUrl`: the derived connection URL preserves host and path, uses
one of the two transport schemes, and uses the secure one exactly when the
input scheme was secure HTTP. -/
def derivedUrlSpec (u : UrlRecord) (out : String) : Prop :=
  ∃ scheme, out = scheme ++ "//" ++ u.host ++ u.pathname ∧
    (scheme = "wss:" ∨ scheme = "ws:") ∧
    (scheme = "wss:" ↔ u.protocol = "https:")

/-- State reached by a call to `connect()`, whatever its result. -/
def connectStep (env : Bool) (s : ApiState) : ApiState :=
  match connect env s with
  | .pending s₂ => s₂
  | .rejected _ s₂ => s₂
  | .thrown _ s₂ => s₂

/-- State reached by a call to `send()`, whatever its result. -/
def sendStep (n : String) (d : JsVal) (s : ApiState) : ApiState :=
  match send n d s with
  | .ok s₂ _ => s₂
  | .thrown _ s₂ _ => s₂

/-- One atomic step of the manager: a public method call, or a host
callback together with the handler it runs (the host event loop runs each
handler to completion).  The relation over-approximates the host: it does
not constrain when the host may fire an event, which is sound for proving
invariants of all reachable states. -/
inductive Step : ApiState → ApiState → Prop where
  | connectCall (env : Bool) (s : ApiState) : Step s (connectStep env s)
  | openEvt (s : ApiState) : Step s (socketOpened s)
  | connectErrEvt (s : ApiState) : Step s (connErrorDuringConnection s).1
  | errEvt (s : ApiState) : Step s (handleError s).1
  | closeEvt (s : ApiState) : Step s (handleClose s).1
  | msgEvt (p : Option JsVal) (s : ApiState) : Step s (handleMessage p s).1
  | disconnectCall (s : ApiState) : Step s (disconnect s).1
  | sendCall (n : String) (d : JsVal) (s : ApiState) : Step s (sendStep n d s)

/-- States of the manager reachable from a fresh instance. -/
inductive Reachable : ApiState → Prop where
  | init : Reachable initState
  | step {s s₂ : ApiState} : Reachable s → Step s s₂ → Reachable s₂

/-- A non-null handle is live: its ready state is CONNECTING or OPEN. -/
def handleLive (s : ApiState) : Prop :=
  ∀ w, s.ws = some w →
    w.readyState = .connecting ∨ w.readyState = .wsOpen

/-- Number of transport writes in an effect trace. -/
def writeCount (effs : List Effect) : Nat :=
  (effs.filter fun e => match e with | .wsSend _ => true | _ => false).length

/-- Number of dispatches under a given name in an effect trace. -/
def dispatchCount (name : String) (effs : List Effect) : Nat :=
  (effs.filter fun e =>
    match e with | .dispatch n _ => n == name | _ => false).length

/-- A manager whose socket has opened: the state right after a successful
connect and its open notification. -/
def stateOpen : ApiState :=
  { initState with ws := some { readyState := .wsOpen } }

/-- A manager with a connect attempt in flight: the state right after
`connect()` stored the freshly created socket. -/
def pendingState : ApiState :=
  { initState with ws := some { readyState := .connecting } }

theorem disconnect_ws (s : ApiState) : (disconnect s).1.ws = none := by
  cases h : s.ws <;> simp [disconnect, h]

theorem handleError_ws (s : ApiState) : (handleError s).1.ws = none := by
  simpa [handleError] using disconnect_ws s

theorem handleClose_ws (s : ApiState) : (handleClose s).1.ws = none := by
  simpa [handleClose] using disconnect_ws s

theorem handleMessage_state (p : Option JsVal) (s : ApiState) :
    (handleMessage p s).1 = s := by
  cases p with
  | none => rfl
  | some v =>
    cases h : propAccess v "type" <;> simp [handleMessage, receive, h]

theorem sendStep_ws (n : String) (d : JsVal) (s : ApiState) :
    (sendStep n d s).ws = s.ws := by
  unfold sendStep send
  split_ifs <;> rfl

theorem connectStep_ws (env : Bool) (s : ApiState) :
    (connectStep env s).ws = s.ws ∨
    (connectStep env s).ws = some { readyState := .connecting } := by
  unfold connectStep connect
  by_cases hc : isConnected s
  · simp [hc]
  · cases hws : s.ws with
    | some w => simp [hc, hws]
    | none =>
      by_cases he : env
      · simp [hc, hws, he]
      · simp [hc, hws, he]

theorem handleLive_preserved {s s₂ : ApiState} (hs : handleLive s)
    (hstep : Step s s₂) : handleLive s₂ := by
  cases hstep with
  | connectCall env s =>
    intro w hw
    rcases connectStep_ws env s with h | h
    · exact hs w (h ▸ hw)
    · rw [h] at hw
      exact Or.inl (congrArg SocketHandle.readyState (Option.some.inj hw)).symm
  | openEvt s =>
    intro w hw
    cases hws : s.ws with
    | none => simp [socketOpened, hws] at hw
    | some w₂ =>
      simp [socketOpened, hws] at hw
      simp [← hw]
  | connectErrEvt s =>
    intro w hw
    simp [connErrorDuringConnection] at hw
  | errEvt s =>
    intro w hw
    rw [handleError_ws s] at hw
    cases hw
  | closeEvt s =>
    intro w hw
    rw [handleClose_ws s] at hw
    cases hw
  | msgEvt p s =>
    intro w hw
    rw [handleMessage_state p s] at hw
    exact hs w hw
  | disconnectCall s =>
    intro w hw
    rw [disconnect_ws s] at hw
    cases hw
  | sendCall n d s =>
    intro w hw
    rw [sendStep_ws n d s] at hw
    exact hs w hw

theorem isConnected_of_ws_none {s : ApiState} (h : s.ws = none) :
    isConnected s = false := by
  simp [isConnected, h]

theorem lookupField_setField_ne (l : List (String × JsVal)) (k k' : String)
    (v : JsVal) (h : k' ≠ k) :
    lookupField (setField l k' v) k = lookupField l k := by
  induction l with
  | nil => simp [setField, lookupField, h]
  | cons kv rest ih =>
    obtain ⟨k₂, v₂⟩ := kv
    by_cases h2 : k₂ = k'
    · subst h2
      simp [setField, lookupField, h]
    · by_cases h3 : k₂ = k <;>
        simp [setField, lookupField, h2, h3, ih, Ne.symm h]

theorem lookupField_foldl_setField (fs acc : List (String × JsVal))
    (k : String) (h : ∀ kv ∈ fs, kv.1 ≠ k) :
    lookupField (fs.foldl (fun acc kv => setField acc kv.1 kv.2) acc) k =
      lookupField acc k := by
  induction fs generalizing acc with
  | nil => rfl
  | cons kv rest ih =>
    rw [List.foldl_cons,
      ih _ (fun kv2 hm => h kv2 (List.mem_cons_of_mem _ hm))]
    exact lookupField_setField_ne acc k kv.1 kv.2 (h kv (List.mem_cons_self _ _))

/-- C1, counterexample: with the manager connected, sending event name
session.update with a data object that itself carries a type field produces
a Wire Event whose type is the data field, not the given event name: the
spread of data comes last in the object literal and overrides the
authoritative fields. -/
theorem c1_counterexample :
    send "session.update" (.vobj [("type", .vstr "other")]) stateOpen =
      .ok { stateOpen with evtCounter := 1 }
        [dispatchEffect "client.session.update"
           (.vobj [("event_id", .vstr "evt_0"), ("type", .vstr "other")]),
         dispatchEffect "client.*"
           (.vobj [("event_id", .vstr "evt_0"), ("type", .vstr "other")]),
         Effect.wsSend
           (.vobj [("event_id", .vstr "evt_0"), ("type", .vstr "other")])] ∧
    getField (.vobj [("event_id", .vstr "evt_0"), ("type", .vstr "other")])
        "type" ≠ .vstr "session.update" := by
  refine ⟨rfl, ?_⟩
  have hval :
      getField
        (JsVal.vobj [("event_id", .vstr "evt_0"), ("type", .vstr "other")])
        "type" = .vstr "other" := rfl
  rw [hval]
  intro h
  injection h with h2
  exact absurd h2 (by decide)

/-- C1, amended: the object literal building the Wire Event sets event_id
and type first and spreads data last, so a data field named event_id or
type overrides the generated identifier or the given event name; when data
contributes neither key, the transmitted and dispatched event carries the
freshly generated identifier (the per-instance counter advances on every
send) and its type equals the given event name. -/
theorem c1_amended (s : ApiState) (n : String) (data : JsVal)
    (hconn : isConnected s = true)
    (hobj : jsTypeof data = "object") (hnn : isNull data = false)
    (hid : ∀ kv ∈ spreadFields data, kv.1 ≠ "event_id")
    (hty : ∀ kv ∈ spreadFields data, kv.1 ≠ "type") :
    ∃ s₂ evt,
      send n data s = .ok s₂
        [dispatchEffect ("client." ++ n) evt, dispatchEffect "client.*" evt,
         Effect.wsSend evt] ∧
      getField evt "event_id" = .vstr (generateId "evt_" s.evtCounter) ∧
      getField evt "type" = .vstr n ∧
      s₂.evtCounter = s.evtCounter + 1 := by
  refine ⟨{ s with evtCounter := s.evtCounter + 1 },
    mkObject ([("event_id", .vstr (generateId "evt_" s.evtCounter)),
               ("type", .vstr n)] ++ spreadFields data), ?_, ?_, ?_, rfl⟩
  · simp [send, hconn, hobj, hnn]
  · simp only [mkObject, getField, List.foldl_append]
    rw [lookupField_foldl_setField _ _ _ hid]
    rfl
  · simp only [mkObject, getField, List.foldl_append]
    rw [lookupField_foldl_setField _ _ _ hty]
    rfl

/-- C1, amended, witness at a concrete connected state and payload without
reserved keys. -/
theorem c1_amended_witness :
    ∃ s₂ evt,
      send "ping" (JsVal.vobj [("foo", JsVal.vnum 1)]) stateOpen = .ok s₂
        [dispatchEffect "client.ping" evt, dispatchEffect "client.*" evt,
         Effect.wsSend evt] ∧
      getField evt "event_id" = .vstr "evt_0" ∧
      getField evt "type" = .vstr "ping" ∧
      s₂.evtCounter = 1 :=
  c1_amended stateOpen "ping" (JsVal.vobj [("foo", JsVal.vnum 1)]) rfl rfl rfl
    (by decide) (by decide)

/-- C2, counterexample: from the open state, the error handler run
dispatches close with error true and nulls the handle, but the permanent
close listener attached at open is never detached, so the subsequent
host-delivered close event for the same failure runs handleClose, which
dispatches a second local close, with error false, over the already-null
handle.  Across the two handler runs the same failure produces two close
dispatches, refuting the exactly-one conclusion of the claim. -/
theorem c2_counterexample :
    (handleError stateOpen).2 =
      [dispatchEffect "close" (closePayload true), Effect.wsClose] ∧
    (handleClose (handleError stateOpen).1).2 =
      [dispatchEffect "close" (closePayload false)] ∧
    dispatchCount "close"
      ((handleError stateOpen).2 ++ (handleClose (handleError stateOpen).1).2)
      = 2 :=
  ⟨rfl, rfl, rfl⟩

/-- C2, amended: from any connected state, the error handler run itself
dispatches close with payload error true exactly once, and immediately
afterwards isConnected is false and the stored handle is null; however,
because the permanent close listener is never detached, the subsequent
host-delivered close event for the same failure runs handleClose, which
dispatches a second local close with payload error false (its disconnect
being a no-op on the already-null handle), so the failure as a whole
produces two close dispatches. -/
theorem c2_amended (s : ApiState) (h : isConnected s = true) :
    (handleError s).2 =
      [dispatchEffect "close" (closePayload true), Effect.wsClose] ∧
    dispatchCount "close" (handleError s).2 = 1 ∧
    isConnected (handleError s).1 = false ∧
    (handleError s).1.ws = none ∧
    (handleClose (handleError s).1).2 =
      [dispatchEffect "close" (closePayload false)] ∧
    dispatchCount "close"
      ((handleError s).2 ++ (handleClose (handleError s).1).2) = 2 := by
  have hws : ∃ w, s.ws = some w := by
    cases hx : s.ws with
    | none => simp [isConnected, hx] at h
    | some w => exact ⟨w, rfl⟩
  obtain ⟨w, hx⟩ := hws
  have herr : (handleError s).2 =
      [dispatchEffect "close" (closePayload true), Effect.wsClose] := by
    simp [handleError, disconnect, hx]
  have hcl : (handleClose (handleError s).1).2 =
      [dispatchEffect "close" (closePayload false)] := by
    simp [handleClose, disconnect, handleError_ws s]
  refine ⟨herr, ?_, isConnected_of_ws_none (handleError_ws s),
    handleError_ws s, hcl, ?_⟩
  · rw [herr]; rfl
  · rw [herr, hcl]; rfl

/-- C2, amended, witness at the concrete open state. -/
theorem c2_amended_witness :
    (handleError stateOpen).2 =
      [dispatchEffect "close" (closePayload true), Effect.wsClose] ∧
    dispatchCount "close" (handleError stateOpen).2 = 1 ∧
    isConnected (handleError stateOpen).1 = false ∧
    (handleError stateOpen).1.ws = none ∧
    (handleClose (handleError stateOpen).1).2 =
      [dispatchEffect "close" (closePayload false)] ∧
    dispatchCount "close"
      ((handleError stateOpen).2 ++ (handleClose (handleError stateOpen).1).2)
      = 2 :=
  c2_amended stateOpen rfl

/-- C3, counterexample: immediately after connect() is called on a fresh
manager the attempt is still in flight (the socket is not open), yet the
stored handle is already non-null: the source stores the handle at socket
creation, before the open notification. -/
theorem c3_counterexample :
    connect true initState = .pending pendingState ∧
    pendingState.ws ≠ none ∧
    isConnected pendingState = false := by
  refine ⟨rfl, ?_, rfl⟩
  simp [pendingState, initState]

/-- C3, amended: in every reachable state the manager holds its at most one
socket handle in the single nullable field, and the handle is non-null only
from the start of a connect attempt (socket creation) until a terminal
close, error or disconnect: whenever the handle is non-null its ready state
is CONNECTING or OPEN, so in particular it is already non-null while a
connect attempt is in flight. -/
theorem c3_amended (s : ApiState) (h : Reachable s) (w : SocketHandle)
    (hw : s.ws = some w) :
    w.readyState = .connecting ∨ w.readyState = .wsOpen := by
  suffices hl : handleLive s from hl w hw
  clear hw w
  induction h with
  | init => intro w hw; simp [initState] at hw
  | step hr hst ih => exact handleLive_preserved ih hst

/-- C3, amended, witness at the reachable in-flight state. -/
theorem c3_amended_witness :
    WsReadyState.connecting = WsReadyState.connecting ∨
    WsReadyState.connecting = WsReadyState.wsOpen :=
  c3_amended pendingState
    (Reachable.step Reachable.init (Step.connectCall true initState))
    { readyState := .connecting } rfl

/-- C4: when the host provides no socket transport and no handle exists
(necessarily so, since without a transport no socket was ever created),
connect() delivers EnvironmentUnsupported as a rejected result and never as
a synchronous throw. -/
theorem c4_env_unsupported (s : ApiState) (h : s.ws = none) :
    connect false s = .rejected .environmentUnsupported s ∧
    ∀ e s₂, connect false s ≠ .thrown e s₂ := by
  have hc : isConnected s = false := isConnected_of_ws_none h
  have heq : connect false s = .rejected .environmentUnsupported s := by
    simp [connect, hc, h]
  refine ⟨heq, ?_⟩
  intro e s₂ hcontra
  rw [heq] at hcontra
  simp at hcontra

/-- C4 witness at the fresh state. -/
theorem c4_env_unsupported_witness :
    connect false initState = .rejected .environmentUnsupported initState ∧
    ∀ e s₂, connect false initState ≠ .thrown e s₂ :=
  c4_env_unsupported initState rfl

/-- C5: a second connect() while a handle already exists is rejected with
AlreadyConnected when the socket is open (isConnected true) and with
AlreadyConnecting otherwise, and in both cases returns with the state, and
hence the existing handle, unchanged: no second socket is created. -/
theorem c5_double_connect (env : Bool) (s : ApiState) (w : SocketHandle)
    (hw : s.ws = some w) :
    (isConnected s = true → connect env s = .rejected .alreadyConnected s) ∧
    (isConnected s = false → connect env s = .rejected .alreadyConnecting s) := by
  constructor
  · intro hc; simp [connect, hc]
  · intro hc; simp [connect, hc, hw]

/-- C5 witness at the open state and at the in-flight state. -/
theorem c5_double_connect_witness :
    connect true stateOpen = .rejected .alreadyConnected stateOpen ∧
    connect true pendingState = .rejected .alreadyConnecting pendingState :=
  ⟨(c5_double_connect true stateOpen { readyState := .wsOpen } rfl).1 rfl,
   (c5_double_connect true pendingState { readyState := .connecting } rfl).2 rfl⟩

/-- C6: every successful send performs, in this order, a dispatch under
client.<name>, a dispatch under client.*, and exactly one transport write,
and the written frame is the same event value, hence carries the same
identifier, as the one dispatched locally. -/
theorem c6_send_effect_order (s : ApiState) (n : String) (data : JsVal)
    (hconn : isConnected s = true) (hobj : jsTypeof data = "object")
    (hnn : isNull data = false) :
    ∃ s₂ evt,
      send n data s = .ok s₂
        [dispatchEffect ("client." ++ n) evt, dispatchEffect "client.*" evt,
         Effect.wsSend evt] ∧
      writeCount [dispatchEffect ("client." ++ n) evt,
        dispatchEffect "client.*" evt, Effect.wsSend evt] = 1 := by
  refine ⟨{ s with evtCounter := s.evtCounter + 1 },
    mkObject ([("event_id", .vstr (generateId "evt_" s.evtCounter)),
               ("type", .vstr n)] ++ spreadFields data), ?_, rfl⟩
  simp [send, hconn, hobj, hnn]

/-- C6 witness at a concrete connected state. -/
theorem c6_send_effect_order_witness :
    ∃ s₂ evt,
      send "ping" (JsVal.vobj []) stateOpen = .ok s₂
        [dispatchEffect "client.ping" evt, dispatchEffect "client.*" evt,
         Effect.wsSend evt] ∧
      writeCount [dispatchEffect "client.ping" evt,
        dispatchEffect "client.*" evt, Effect.wsSend evt] = 1 :=
  c6_send_effect_order stateOpen "ping" (JsVal.vobj []) rfl rfl rfl

/-- C7: for every URL the host parser accepts, the derived connection URL
satisfies the spec property (host and path preserved, secure transport
scheme iff secure HTTP scheme) and is unchanged when the query and fragment
of the input vary: they are discarded. -/
theorem c7_url_derivation (url : String) (u : UrlRecord) :
    ∃ out, getWebSocketUrl url (some u) = .ok out ∧ derivedUrlSpec u out ∧
      ∀ q f,
        getWebSocketUrl url (some { u with search := q, hash := f }) =
          .ok out := by
  by_cases hp : u.protocol = "https:"
  · refine ⟨"wss:" ++ "//" ++ u.host ++ u.pathname,
      by simp [getWebSocketUrl, hp], ⟨"wss:", rfl, Or.inl rfl, ?_⟩,
      fun q f => by simp [getWebSocketUrl, hp]⟩
    simp [hp]
  · refine ⟨"ws:" ++ "//" ++ u.host ++ u.pathname,
      by simp [getWebSocketUrl, hp], ⟨"ws:", rfl, Or.inr rfl, ?_⟩,
      fun q f => by simp [getWebSocketUrl, hp]⟩
    constructor
    · intro hh; exact absurd hh (by decide)
    · intro hh; exact absurd hh hp

/-- C8: an inbound raw frame whose parse fails is dropped inside the
message-handling boundary: the handler returns with no dispatch and no
other effect, the state is unchanged, and in particular the connection
stays in whatever connectivity it had. -/
theorem c8_unparseable_dropped (s : ApiState) :
    handleMessage none s = (s, []) ∧
    isConnected (handleMessage none s).1 = isConnected s :=
  ⟨rfl, rfl⟩

/-- C9: a send while not connected throws NotConnected before any effect:
the outcome carries the unchanged state and an empty effect trace, so no
transport write and no local dispatch occur. -/
theorem c9_send_not_connected (s : ApiState) (n : String) (d : JsVal)
    (h : isConnected s = false) :
    send n d s = .thrown .notConnected s [] := by
  simp [send, h]

/-- C9 witness at the fresh state. -/
theorem c9_send_not_connected_witness :
    send "ping" (JsVal.vobj []) initState = .thrown .notConnected initState [] :=
  c9_send_not_connected initState "ping" (JsVal.vobj []) rfl

end RealtimeApi
